import Mathlib

set_option autoImplicit false

/-!
Shallow embedding of the natiu-mqtt MQTT v3.1.1 client core (Go) and proofs
about it.  Bytes are modelled as natural numbers (all values kept below 256 by
the operations themselves), an io.Reader transport as a list of bytes with
bytes.Buffer semantics, and Go multiple-return functions as tuples
value x bytesConsumed x error x remainingStream.  Go uint32/uint16 arithmetic
is carried out on Nat; wherever a Go conversion can truncate, the modulus is
written out explicitly.
-/

namespace Natiu

/-- Error values produced by the embedded code.  Each constructor corresponds
to one distinct Go error value (or errors.New call site) of the source. -/
inductive Err where
  /-- io.EOF: the transport ran out of bytes. -/
  | eofErr
  /-- errors.New("malformed remaining length") in decodeRemainingLength. -/
  | malformedRemLen
  /-- errors.New("invalid packet type") in DecodeHeader. -/
  | badPacketType
  /-- errors.New("control packet bit not set (0b0010)") in validateFlags. -/
  | controlFlagBit
  /-- errors.New("expected 0b0000 flag for packet type") in validateFlags. -/
  | badFlags
  /-- errors.New("remaining length too large for MQTT v3.1.1 spec") in Header.Encode. -/
  | overLength
  /-- ErrUserBufferFull. -/
  | userBufferFull
  /-- errors.New("zero length MQTT string") in decodeMQTTString. -/
  | zeroLengthString
  /-- ErrBadRemainingLen used by Rx.ReadNextPacket. -/
  | badRemainingLen
  /-- errGotZeroPI. -/
  | gotZeroPI
  /-- errEmptyTopic. -/
  | emptyTopic
  /-- errors.New("connack received while connected") in the OnConnack callback. -/
  | connackWhileConnected
  /-- a nonzero CONNACK return code returned as an error by the OnConnack callback. -/
  | connectRefused (code : Nat)
  /-- errors.New("got mismatched number of return codes compared to pending client subscriptions"). -/
  | subackMismatch
  /-- errors.New("QoS does not match requested QoS for topic") in the OnSuback callback. -/
  | subackQoS
  /-- errDisconnected. -/
  | disconnected
  /-- errors.New("yet to connect"), the close reason installed by NewClient. -/
  | yetToConnect
  /-- errors.New("only supports QoS0") in Client.PublishPayload. -/
  | onlyQoS0
  /-- errors.New("expected OnPub to completely read payload"). -/
  | payloadUnderread
  /-- errors.New("reserved bit set in CONNECT flag") in DecodeConnect. -/
  | reservedConnectFlag
  /-- errors.New("username flag must be set to use password flag") in DecodeConnect. -/
  | passwordNoUsername
  /-- errors.New("CONNACK Ack flag bits 7-1 must be set to 0"). -/
  | badConnackFlags
  /-- errors.New("cannot encode MQTT string of length 0") in encodeMQTTString. -/
  | encodeZeroString
  /-- errors.New("cannot encode MQTT string of length > MaxUint16 or length 0"). -/
  | encodeLongString
  /-- Go panic("unreachable") in the default branch of Rx.ReadNextPacket,
  modelled as a distinguished error (DecodeHeader prevents it from firing). -/
  | unreachableCase
deriving DecidableEq, Repr

/-- Constants from definitions.go (part_005) and const.go. -/
def maxRemainingLengthSize : Nat := 4

/-- Constant maxRemainingLengthValue from const.go; note the source value is
0xffff_ff7f, not the MQTT v3.1.1 limit 0x0fff_ffff. -/
def maxRemainingLengthValue : Nat := 0xffffff7f

/-- Packet type constants, definitions.go (part_005), values 1..14 via iota. -/
def PacketConnect : Nat := 1

def PacketConnack : Nat := 2

def PacketPublish : Nat := 3

def PacketPuback : Nat := 4

def PacketPubrec : Nat := 5

def PacketPubrel : Nat := 6

def PacketPubcomp : Nat := 7

def PacketSubscribe : Nat := 8

def PacketSuback : Nat := 9

def PacketUnsubscribe : Nat := 10

def PacketUnsuback : Nat := 11

def PacketPingreq : Nat := 12

def PacketPingresp : Nat := 13

def PacketDisconnect : Nat := 14

/-- QoS constants from definitions.go: QoS0=0, QoS1=1, QoS2=2, QoSSubfail=0x80. -/
def QoSSubfail : Nat := 0x80

/-- decodeByte (decode.go): reads a single byte from the transport.  Against a
bytes.Buffer-like transport, reading from a nonempty stream succeeds (an EOF
delivered together with the byte is discarded by the source), and reading from
an empty stream fails with io.EOF. -/
def decodeByte : List Nat → Nat × Option Err × List Nat
  | [] => (0, some .eofErr, [])
  | b :: r => (b, none, r)

/-- readFull (decode.go): fills a k-byte destination.  Against a bytes.Buffer
transport the first Read hands over whatever is available with a nil error and
io.CopyBuffer absorbs the final EOF, so an error (io.EOF) is reported only when
the stream is empty while at least one byte was requested; a short read
otherwise succeeds silently. -/
def readFull (k : Nat) (r : List Nat) : Nat × Option Err × List Nat :=
  if k = 0 then (0, none, r)
  else if r.isEmpty then (0, some .eofErr, r)
  else (min k r.length, none, r.drop k)

/-- Contents of a zero-initialised k-byte array after readFull: the available
bytes followed by the untouched zero bytes. -/
def takePad (k : Nat) (r : List Nat) : List Nat :=
  r.take k ++ List.replicate (k - r.length) 0

/-- decodeUint16 (decode.go): big-endian 16-bit read via readFull into a
zero-initialised 2-byte buffer. -/
def decodeUint16 (r : List Nat) : Nat × Nat × Option Err × List Nat :=
  let t := readFull 2 r
  let buf := takePad 2 r
  (buf.getD 0 0 * 256 + buf.getD 1 0, t.1, t.2.1, t.2.2)

/-- Loop body of decodeRemainingLength (decode.go lines 385-400).  The first
argument is the remaining number of loop iterations (the source iterates
i = 0 .. maxRemainingLengthSize-1 and afterwards returns value 0 with the
malformed-length error).  Note the source returns successfully as soon as it
reads a byte whose bit 7 is SET, and multiplies the multiplier by 128 when
bit 7 is clear.  uint32 arithmetic cannot overflow here because the
accumulated value stays below 128^4. -/
def decodeRemLenLoop : Nat → Nat → Nat → Nat → List Nat → Nat × Nat × Option Err × List Nat
  | 0, _, _, n, r => (0, n, some .malformedRemLen, r)
  | i + 1, mult, value, n, r =>
    match decodeByte r with
    | (_, some e, r2) => (value, n, some e, r2)
    | (b, none, r2) =>
      let value2 := value + (b &&& 127) * mult
      if b &&& 128 ≠ 0 then (value2, n + 1, none, r2)
      else decodeRemLenLoop i (mult * 128) value2 (n + 1) r2

/-- decodeRemainingLength (decode.go lines 385-400). -/
def decodeRemainingLength (r : List Nat) : Nat × Nat × Option Err × List Nat :=
  decodeRemLenLoop maxRemainingLengthSize 1 0 0 r

/-- Digit loop of encodeRemainingLength (part_006 lines 59-67): base-128
digits of remlen, with bit 7 set on every digit that is followed by another
one.  The fuel argument (five is enough for any uint32) only bounds the
number of digits so the recursion is structural. -/
def encodeRemLenDigits : Nat → Nat → List Nat
  | _, 0 => []
  | 0, _ => []
  | fuel + 1, remlen =>
    let digit := remlen % 128
    let rest := remlen / 128
    (if 0 < rest then digit + 128 else digit) :: encodeRemLenDigits fuel rest

/-- encodeRemainingLength (part_006 lines 49-68): fast path writes a single
byte for values below 128 (the digit loop would write nothing for 0); larger
values take the digit loop.  The bytes written to the destination slice are
returned as a list. -/
def encodeRemainingLength (remlen : Nat) : List Nat :=
  if remlen < 128 then [remlen] else encodeRemLenDigits 5 remlen

/-- Header (mqtt.go lines 44-48): first byte (packet type in the high nibble,
flags in the low nibble) plus the remaining length. -/
structure Header where
  firstByte : Nat
  RemainingLength : Nat
deriving DecidableEq, Repr

/-- Packet type of a header (mqtt.go line 179). -/
def Header.Type (h : Header) : Nat := h.firstByte / 16

/-- Packet flags of a header (mqtt.go line 176). -/
def Header.Flags (h : Header) : Nat := h.firstByte % 16

/-- Header.Size (mqtt.go lines 52-67), with the threshold constants exactly as
in the source. -/
def Header.Size (h : Header) : Nat :=
  let rl := h.RemainingLength
  if rl ≤ 0x7F then 2
  else if rl ≤ 0xff7f then 3
  else if rl ≤ 0xffff7f then 4
  else if rl < maxRemainingLengthValue then 5
  else 0

/-- Result of Header.Encode: the bytes written, a returned error, or a Go
runtime crash (index out of range). -/
inductive EncodeResult where
  | ok (bytes : List Nat)
  | err (e : Err)
  | crash
deriving DecidableEq, Repr

/-- Header.Encode together with Header.Put (part_006 lines 13-26): remaining
lengths above maxRemainingLengthValue are rejected with an error; otherwise
Put writes the first byte followed by the remaining-length digits into a
5-byte buffer, so a fifth digit indexes past the 4-byte sub-slice handed to
encodeRemainingLength and crashes at runtime. -/
def Header.Encode (h : Header) : EncodeResult :=
  if h.RemainingLength > maxRemainingLengthValue then .err .overLength
  else
    let digits := encodeRemainingLength h.RemainingLength
    if digits.length > 4 then .crash
    else .ok (h.firstByte :: digits)

/-- validateFlags (mqtt.go lines 188-198).  The Go test flag4bits &^ (1<<1) == 0
on a uint8 is written as a mask with 253. -/
def validateFlags (p flags : Nat) : Option Err :=
  let onlyBit1Set := flags &&& 253 == 0
  let isControlPacket := p == PacketPubrel || p == PacketSubscribe || p == PacketUnsubscribe
  if p == PacketPublish || (onlyBit1Set && isControlPacket) || (!isControlPacket && flags == 0) then none
  else if isControlPacket then some .controlFlagBit
  else some .badFlags

/-- DecodeHeader (mqtt.go lines 515-541): first byte, remaining length,
packet-type range check 1..14, flag validation. -/
def DecodeHeader (input : List Nat) : Header × Nat × Option Err × List Nat :=
  match decodeByte input with
  | (_, some e, r) => (⟨0, 0⟩, 0, some e, r)
  | (firstByte, none, r) =>
    let t := decodeRemainingLength r
    let n := 1 + t.2.1
    match t.2.2.1 with
    | some e => (⟨0, 0⟩, n, some e, t.2.2.2)
    | none =>
      let packetType := firstByte / 16
      if packetType == 0 || packetType > PacketDisconnect then (⟨0, 0⟩, n, some .badPacketType, t.2.2.2)
      else
        match validateFlags packetType (firstByte % 16) with
        | some e => (⟨0, 0⟩, n, some e, t.2.2.2)
        | none => (⟨firstByte, t.1⟩, n, none, t.2.2.2)

/-- Helper bound: the remaining-length loop consumes at most i further bytes. -/
theorem decodeRemLenLoop_count_le (i : Nat) : ∀ (mult value n : Nat) (r : List Nat),
    (decodeRemLenLoop i mult value n r).2.1 ≤ n + i := by
  induction i with
  | zero => intro mult value n r; simp [decodeRemLenLoop]
  | succ i ih =>
    intro mult value n r
    cases r with
    | nil => simp [decodeRemLenLoop, decodeByte]
    | cons b r2 =>
      simp only [decodeRemLenLoop, decodeByte]
      split
      · show n + 1 ≤ n + (i + 1)
        omega
      · exact le_trans (ih (mult * 128) (value + (b &&& 127) * mult) (n + 1) r2) (by omega)

/-- SubscribeRequest (mqtt.go lines 389-394). -/
structure SubscribeRequest where
  TopicFilter : List Nat
  QoS : Nat
deriving DecidableEq, Repr

/-- VariablesSubscribe (mqtt.go lines 364-367). -/
structure VariablesSubscribe where
  PacketIdentifier : Nat
  TopicFilters : List SubscribeRequest
deriving DecidableEq, Repr

/-- VariablesSuback (mqtt.go lines 397-403). -/
structure VariablesSuback where
  PacketIdentifier : Nat
  ReturnCodes : List Nat
deriving DecidableEq, Repr

/-- VariablesConnack (mqtt.go lines 443-448). -/
structure VariablesConnack where
  AckFlags : Nat
  ReturnCode : Nat
deriving DecidableEq, Repr

/-- VariablesPublish (mqtt.go lines 338-344). -/
structure VariablesPublish where
  TopicName : List Nat
  PacketIdentifier : Nat
deriving DecidableEq, Repr

/-- VariablesConnect (mqtt.go lines 270-292), octet strings as byte lists. -/
structure VariablesConnect where
  ClientID : List Nat
  Protocol : List Nat
  ProtocolLevel : Nat
  Username : List Nat
  Password : List Nat
  WillTopic : List Nat
  WillMessage : List Nat
  WillRetain : Bool
  CleanSession : Bool
  WillQoS : Nat
  KeepAlive : Nat
deriving DecidableEq, Repr

/-- Zero value of VariablesConnect, returned by DecodeConnect on error. -/
def VariablesConnect.zero : VariablesConnect :=
  { ClientID := []
    Protocol := []
    ProtocolLevel := 0
    Username := []
    Password := []
    WillTopic := []
    WillMessage := []
    WillRetain := false
    CleanSession := false
    WillQoS := 0
    KeepAlive := 0 }

/-- VariablesUnsubscribe (mqtt.go lines 421-424). -/
structure VariablesUnsubscribe where
  PacketIdentifier : Nat
  Topics : List (List Nat)
deriving DecidableEq, Repr

/-- clientState (part_003 lines 10-23).  time.Time values are modelled as Nat
with 0 as the zero time (IsZero). -/
structure ClientState where
  lastRx : Nat
  lastTx : Nat
  connectedAt : Nat
  activeSubs : List (List Nat)
  pendingPingreq : Nat
  pendingPingresp : Nat
  closeErr : Option Err
  pendingSubs : VariablesSubscribe
deriving DecidableEq, Repr

/-- Client state as created by NewClient (part_001 line 50): the zero value of
clientState except closeErr is preset to the yet-to-connect error. -/
def ClientState.initial : ClientState :=
  { lastRx := 0
    lastTx := 0
    connectedAt := 0
    activeSubs := []
    pendingPingreq := 0
    pendingPingresp := 0
    closeErr := some .yetToConnect
    pendingSubs := ⟨0, []⟩ }

/-- clientState.onConnect (part_003 lines 27-36).  The nil check and
reallocation of activeSubs only set capacity; its length becomes zero either
way. -/
def ClientState.onConnect (cs : ClientState) (t : Nat) : ClientState :=
  { cs with
    closeErr := none
    activeSubs := []
    lastRx := t
    connectedAt := t
    pendingSubs := ⟨0, []⟩ }

/-- clientState.onDisconnect (part_003 lines 47-58).  The source panics when
handed a nil error, so the model takes a plain Err. -/
def ClientState.onDisconnect (cs : ClientState) (e : Err) : ClientState :=
  { cs with
    closeErr := some e
    connectedAt := 0
    lastRx := 0
    lastTx := 0
    pendingPingreq := 0
    pendingPingresp := 0
    pendingSubs := ⟨0, []⟩ }

/-- OnConnack callback produced by clientState.callbacks (part_003 lines
64-77); now stands for the time.Now() stamp taken at entry. -/
def ClientState.onConnackCallback (cs : ClientState) (now : Nat) (vc : VariablesConnack) : ClientState × Option Err :=
  let cs2 := { cs with lastRx := now }
  if cs2.closeErr = none then (cs2, some .connackWhileConnected)
  else if vc.ReturnCode ≠ 0 then (cs2, some (.connectRefused vc.ReturnCode))
  else (cs2.onConnect now, none)

/-- Loop of the OnSuback callback (part_003 lines 87-94): walks the return
codes parallel to the pending topic filters, appends the filter of every
non-subfail code, and stops with an error at the first granted QoS differing
from the requested one.  The accumulator keeps appends already performed (the
source mutates cs.activeSubs in place, so they survive a mid-loop error).
The unequal-length third case is unreachable behind the length check (the Go
index expression would panic there). -/
def subackLoop : List Nat → List SubscribeRequest → List (List Nat) → List (List Nat) × Option Err
  | [], _, acc => (acc, none)
  | _ :: _, [], acc => (acc, some .unreachableCase)
  | q :: qs, f :: fs, acc =>
    if q ≠ QoSSubfail then
      if q ≠ f.QoS then (acc, some .subackQoS)
      else subackLoop qs fs (acc ++ [f.TopicFilter])
    else subackLoop qs fs acc

/-- OnSuback callback produced by clientState.callbacks (part_003 lines
79-97). -/
def ClientState.onSubackCallback (cs : ClientState) (now : Nat) (vs : VariablesSuback) : ClientState × Option Err :=
  let cs2 := { cs with lastRx := now }
  if vs.ReturnCodes.length ≠ cs2.pendingSubs.TopicFilters.length then (cs2, some .subackMismatch)
  else
    let t := subackLoop vs.ReturnCodes cs2.pendingSubs.TopicFilters []
    let cs3 := { cs2 with activeSubs := cs2.activeSubs ++ t.1 }
    match t.2 with
    | some e => (cs3, some e)
    | none => ({ cs3 with pendingSubs := { cs3.pendingSubs with TopicFilters := [] } }, none)

/-- OnOther callback produced by clientState.callbacks (part_003 lines
98-118); tp is the packet type of rx.LastReceivedHeader. -/
def ClientState.onOtherCallback (cs : ClientState) (now : Nat) (tp : Nat) (packetIdentifier : Nat) : ClientState × Option Err :=
  let _ := packetIdentifier
  let cs2 := { cs with lastRx := now }
  if tp = PacketDisconnect then (cs2.onDisconnect .disconnected, some .disconnected)
  else if tp = PacketPingreq then ({ cs2 with pendingPingreq := now }, none)
  else if tp = PacketPingresp then ({ cs2 with pendingPingresp := 0 }, none)
  else (cs2, none)

/-- OnRxError callback (part_003 lines 119-121). -/
def ClientState.onRxError (cs : ClientState) (e : Err) : ClientState :=
  cs.onDisconnect e

/-- OnTxError callback (part_003 lines 123-125). -/
def ClientState.onTxError (cs : ClientState) (e : Err) : ClientState :=
  cs.onDisconnect e

/-- OnSuccessfulTx callback (part_003 lines 126-130). -/
def ClientState.onSuccessfulTx (cs : ClientState) (now : Nat) : ClientState :=
  { cs with lastTx := now }

/-- clientState.IsConnected (part_003 lines 135-142); none models the panic
branch of the assertion. -/
def ClientState.IsConnected (cs : ClientState) : Option Bool :=
  if (cs.connectedAt == 0) != cs.closeErr.isSome then none
  else some cs.closeErr.isNone

/-- clientState.Err (part_003 lines 146-153); none models the panic branch. -/
def ClientState.ErrValue (cs : ClientState) : Option (Option Err) :=
  if (cs.connectedAt == 0) != cs.closeErr.isSome then none
  else some cs.closeErr

/-- Session invariant from the spec: connected-at is zero exactly when a close
reason is recorded. -/
def sessionInv (cs : ClientState) : Prop :=
  cs.connectedAt = 0 ↔ cs.closeErr ≠ none

/-- C1: the spec claims that for every header with remaining length in
0..0x0fffffff, decoding the encoded bytes yields the header back with equal
byte counts.  The code refutes this: the remaining-length decoder treats a
byte with bit 7 set as terminal while the encoder sets bit 7 on every
non-final digit, so for the header with first byte 0x10 and remaining length
200 the encoder writes the 3 bytes 10 C8 01 but DecodeHeader returns
remaining length 72 after consuming only 2 bytes. -/
theorem c1_header_roundtrip_broken :
    Header.Encode ⟨0x10, 200⟩ = .ok [0x10, 0xC8, 0x01] ∧
    DecodeHeader [0x10, 0xC8, 0x01] = (⟨0x10, 72⟩, 2, none, [0x01]) ∧
    (72 ≠ 200 ∧ 2 ≠ 3) := by
  refine ⟨by decide, by decide, by decide, by decide⟩

/-- C2: the spec claims the remaining-length decoder reads at most 4 bytes
(true: first conjunct) and fails with the malformed-length error on the input
10 FF FF FF FF (false on this code): because the continuation test is
inverted, the decoder stops at the very first 0xFF byte and DecodeHeader
succeeds with remaining length 127 after 2 bytes, leaving the transport
open. -/
theorem c2_malformed_length_not_detected :
    (∀ r : List Nat, (decodeRemainingLength r).2.1 ≤ 4) ∧
    decodeRemainingLength [0xFF, 0xFF, 0xFF, 0xFF] = (127, 1, none, [0xFF, 0xFF, 0xFF]) ∧
    DecodeHeader [0x10, 0xFF, 0xFF, 0xFF, 0xFF] = (⟨0x10, 127⟩, 2, none, [0xFF, 0xFF, 0xFF]) := by
  exact ⟨fun r => decodeRemLenLoop_count_le 4 1 0 0 r, by decide, by decide⟩

/-- C3: the spec gives the remaining-length size table 0..127 to 2 header
bytes, 128..16383 to 3, 16384..2097151 to 4, 2097152..268435455 to 5, with
encoding rejected above 268435455.  The code disagrees with itself: the
encoder does write 4 header bytes at 16384 and 5 at 2097152, but Header.Size
(thresholds 0xff7f and 0xffff7f in the source) returns 3 and 4 there, and at
268435456 the encode guard (maxRemainingLengthValue = 0xffffff7f) does not
reject, so Header.Put overruns its 4-byte digit buffer and crashes instead of
returning an error. -/
theorem c3_header_size_table_contradicted :
    Header.Size ⟨0x10, 16384⟩ = 3 ∧ (encodeRemainingLength 16384).length + 1 = 4 ∧
    Header.Size ⟨0x10, 2097152⟩ = 4 ∧ (encodeRemainingLength 2097152).length + 1 = 5 ∧
    Header.Size ⟨0x10, 268435455⟩ = 5 ∧
    Header.Encode ⟨0x10, 268435456⟩ = .crash := by
  refine ⟨by decide, by decide, by decide, by decide, by decide, by decide⟩

/-- C4: the session invariant holds initially and is preserved by every
session-state operation of part_003 (connect with a nonzero timestamp,
disconnect, and each Rx and Tx callback), so the assertion inside IsConnected
and Err never panics on reachable states. -/
theorem c4_session_invariant :
    sessionInv ClientState.initial ∧
    (∀ (cs : ClientState) (t : Nat), 0 < t → sessionInv (cs.onConnect t)) ∧
    (∀ (cs : ClientState) (e : Err), sessionInv (cs.onDisconnect e)) ∧
    (∀ (cs : ClientState) (now : Nat) (vc : VariablesConnack), 0 < now → sessionInv cs →
      sessionInv (cs.onConnackCallback now vc).1) ∧
    (∀ (cs : ClientState) (now : Nat) (vs : VariablesSuback), sessionInv cs →
      sessionInv (cs.onSubackCallback now vs).1) ∧
    (∀ (cs : ClientState) (now tp pi : Nat), sessionInv cs →
      sessionInv (cs.onOtherCallback now tp pi).1) ∧
    (∀ (cs : ClientState) (e : Err), sessionInv (cs.onRxError e)) ∧
    (∀ (cs : ClientState) (e : Err), sessionInv (cs.onTxError e)) ∧
    (∀ (cs : ClientState) (now : Nat), sessionInv cs → sessionInv (cs.onSuccessfulTx now)) ∧
    (∀ cs : ClientState, sessionInv cs → cs.IsConnected ≠ none ∧ cs.ErrValue ≠ none) := by
  have hdisc : ∀ (cs : ClientState) (e : Err), sessionInv (cs.onDisconnect e) := by
    intro cs e
    show (0 : Nat) = 0 ↔ some e ≠ none
    exact ⟨fun _ => Option.some_ne_none e, fun _ => rfl⟩
  have hconn : ∀ (cs : ClientState) (t : Nat), 0 < t → sessionInv (cs.onConnect t) := by
    intro cs t ht
    show t = 0 ↔ (none : Option Err) ≠ none
    constructor
    · intro h0
      exact absurd h0 (by omega)
    · intro hn
      exact absurd rfl hn
  have hinit : sessionInv ClientState.initial := by
    show (0 : Nat) = 0 ↔ some Err.yetToConnect ≠ none
    exact ⟨fun _ => Option.some_ne_none _, fun _ => rfl⟩
  refine ⟨hinit, hconn, hdisc, ?_, ?_, ?_, hdisc, hdisc, ?_, ?_⟩
  · intro cs now vc hnow hinv
    unfold ClientState.onConnackCallback
    dsimp only
    split
    · simpa [sessionInv] using hinv
    · split
      · simpa [sessionInv] using hinv
      · exact hconn _ now hnow
  · intro cs now vs hinv
    unfold ClientState.onSubackCallback
    dsimp only
    split
    · simpa [sessionInv] using hinv
    · split
      · simpa [sessionInv] using hinv
      · simpa [sessionInv] using hinv
  · intro cs now tp pi hinv
    unfold ClientState.onOtherCallback
    dsimp only
    split
    · exact hdisc _ _
    · split
      · simpa [sessionInv] using hinv
      · split
        · simpa [sessionInv] using hinv
        · simpa [sessionInv] using hinv
  · intro cs now hinv
    simpa [sessionInv, ClientState.onSuccessfulTx] using hinv
  · intro cs hinv
    unfold sessionInv at hinv
    have h : (cs.connectedAt == 0) = cs.closeErr.isSome := by
      rcases hc : cs.closeErr with _ | e
      · rw [hc] at hinv
        have hne : cs.connectedAt ≠ 0 := fun h0 => (hinv.mp h0) rfl
        simp [hc, hne]
      · rw [hc] at hinv
        have h0 : cs.connectedAt = 0 := hinv.mpr (Option.some_ne_none e)
        simp [hc, h0]
    constructor
    · simp [ClientState.IsConnected, h]
    · simp [ClientState.ErrValue, h]

/-- Closed witness for C4 obtained by instantiating the invariant theorem on a
concrete connect followed by a CONNACK callback. -/
theorem c4_session_invariant_witness :
    sessionInv (ClientState.initial.onConnect 3) ∧
    sessionInv ((ClientState.initial.onConnect 3).onConnackCallback 5 ⟨0, 0⟩).1 := by
  refine ⟨c4_session_invariant.2.1 ClientState.initial 3 (by decide), ?_⟩
  exact c4_session_invariant.2.2.2.1 _ 5 ⟨0, 0⟩ (by decide)
    (c4_session_invariant.2.1 ClientState.initial 3 (by decide))

/-- Spec-side description used by C6: the topic filters whose return code is
not the subscription-failure marker, in order. -/
def specAcceptedFilters : List Nat → List SubscribeRequest → List (List Nat)
  | q :: qs, f :: fs =>
    if q = QoSSubfail then specAcceptedFilters qs fs
    else f.TopicFilter :: specAcceptedFilters qs fs
  | _, _ => []

/-- Spec-side success condition used by C6: every return code is either the
failure marker or exactly the requested QoS of the matching filter. -/
def specSubackOk : List Nat → List SubscribeRequest → Bool
  | q :: qs, f :: fs => (q == QoSSubfail || q == f.QoS) && specSubackOk qs fs
  | _, _ => true

/-- On equal lengths and well-matched return codes the suback loop appends
exactly the accepted filters and reports no error. -/
theorem subackLoop_ok (qs : List Nat) : ∀ (fs : List SubscribeRequest) (acc : List (List Nat)),
    qs.length = fs.length → specSubackOk qs fs = true →
    subackLoop qs fs acc = (acc ++ specAcceptedFilters qs fs, none) := by
  induction qs with
  | nil =>
    intro fs acc hlen _
    cases fs with
    | nil => simp [subackLoop, specAcceptedFilters]
    | cons f fs => simp at hlen
  | cons q qs ih =>
    intro fs acc hlen hok
    cases fs with
    | nil => simp at hlen
    | cons f fs =>
      have hlen2 : qs.length = fs.length := by simpa using hlen
      simp only [specSubackOk, Bool.and_eq_true, Bool.or_eq_true, beq_iff_eq] at hok
      simp only [subackLoop, specAcceptedFilters]
      by_cases hfail : q = QoSSubfail
      · rw [if_neg (not_not_intro hfail), if_pos hfail]
        exact ih fs acc hlen2 hok.2
      · have hq : q = f.QoS := by
          rcases hok.1 with h | h
          · exact absurd h hfail
          · exact h
        rw [if_pos hfail, if_neg (not_not_intro hq), if_neg hfail,
          ih fs (acc ++ [f.TopicFilter]) hlen2 hok.2]
        simp

/-- On equal lengths, a violated success condition makes the suback loop stop
with the QoS-mismatch error. -/
theorem subackLoop_err (qs : List Nat) : ∀ (fs : List SubscribeRequest) (acc : List (List Nat)),
    qs.length = fs.length → specSubackOk qs fs = false →
    (subackLoop qs fs acc).2 = some Err.subackQoS := by
  induction qs with
  | nil =>
    intro fs acc hlen hbad
    cases fs with
    | nil => simp [specSubackOk] at hbad
    | cons f fs => simp at hlen
  | cons q qs ih =>
    intro fs acc hlen hbad
    cases fs with
    | nil => simp at hlen
    | cons f fs =>
      have hlen2 : qs.length = fs.length := by simpa using hlen
      simp only [specSubackOk, Bool.and_eq_false_iff, Bool.or_eq_false_iff,
        beq_eq_false_iff_ne, ne_eq] at hbad
      simp only [subackLoop]
      by_cases hfail : q = QoSSubfail
      · have hrest : specSubackOk qs fs = false := by
          rcases hbad with ⟨h1, _⟩ | h
          · exact absurd hfail h1
          · exact h
        rw [if_neg (not_not_intro hfail)]
        exact ih fs acc hlen2 hrest
      · rw [if_pos hfail]
        by_cases hq : q = f.QoS
        · have hrest : specSubackOk qs fs = false := by
            rcases hbad with ⟨_, h2⟩ | h
            · exact absurd hq h2
            · exact h
          rw [if_neg (not_not_intro hq)]
          exact ih fs (acc ++ [f.TopicFilter]) hlen2 hrest
        · rw [if_pos hq]

/-- C6: on a SUBACK whose return-code count matches the pending filter count,
the OnSuback callback succeeds exactly when every non-subfail code equals the
requested QoS, in which case the accepted filters are appended to the active
subscriptions in order and the pending record is cleared; any non-subfail
code differing from the requested QoS makes the callback error. -/
theorem c6_suback_callback (cs : ClientState) (now : Nat) (vs : VariablesSuback)
    (hlen : vs.ReturnCodes.length = cs.pendingSubs.TopicFilters.length) :
    (specSubackOk vs.ReturnCodes cs.pendingSubs.TopicFilters = true →
      cs.onSubackCallback now vs =
        ({ cs with
             lastRx := now
             activeSubs := cs.activeSubs ++ specAcceptedFilters vs.ReturnCodes cs.pendingSubs.TopicFilters
             pendingSubs := { cs.pendingSubs with TopicFilters := [] } }, none)) ∧
    (specSubackOk vs.ReturnCodes cs.pendingSubs.TopicFilters = false →
      (cs.onSubackCallback now vs).2 = some Err.subackQoS) := by
  have hcond : ¬ vs.ReturnCodes.length ≠ cs.pendingSubs.TopicFilters.length := not_not_intro hlen
  constructor
  · intro hok
    unfold ClientState.onSubackCallback
    dsimp only
    rw [if_neg hcond, subackLoop_ok _ _ _ hlen hok]
    simp
  · intro hbad
    unfold ClientState.onSubackCallback
    dsimp only
    rw [if_neg hcond]
    have h := subackLoop_err vs.ReturnCodes cs.pendingSubs.TopicFilters [] hlen hbad
    rcases hsplit : subackLoop vs.ReturnCodes cs.pendingSubs.TopicFilters [] with ⟨app, e⟩
    rw [hsplit] at h
    simp only at h
    subst h
    rfl

/-- Concrete connected client state with two pending subscriptions, topic a
requested at QoS1 and topic b at QoS0, used as instantiation point. -/
def sampleSubState : ClientState :=
  { lastRx := 1
    lastTx := 1
    connectedAt := 1
    activeSubs := []
    pendingPingreq := 0
    pendingPingresp := 0
    closeErr := none
    pendingSubs := ⟨1, [⟨[0x61], 1⟩, ⟨[0x62], 0⟩]⟩ }

/-- Closed witness for C6: SUBACK with return codes QoS1 and subfail accepts
topic a only and clears the pending record. -/
theorem c6_suback_callback_witness :
    sampleSubState.onSubackCallback 7 ⟨1, [1, 0x80]⟩ =
      ({ sampleSubState with
           lastRx := 7
           activeSubs := [[0x61]]
           pendingSubs := ⟨1, []⟩ }, none) :=
  (c6_suback_callback sampleSubState 7 ⟨1, [1, 0x80]⟩ (by decide)).1 (by decide)

/-- clientState.PingSent (part_003 lines 213-217): unconditionally stamps
pendingPingresp with the current time. -/
def ClientState.PingSent (cs : ClientState) (now : Nat) : ClientState :=
  { cs with pendingPingresp := now }

/-- Client.StartPing (part_001 lines 219-230) on a healthy transport: when
connected it writes one PINGREQ packet via Tx.WriteSimple (header bytes C0 00,
success firing OnSuccessfulTx which stamps lastTx) and then calls PingSent.
Returns the new state, the returned error and the bytes written. -/
def Client.StartPing (cs : ClientState) (now : Nat) : ClientState × Option Err × List Nat :=
  if cs.closeErr.isSome then (cs, some .disconnected, [])
  else
    match Header.Encode ⟨PacketPingreq * 16, 0⟩ with
    | .ok bytes => ((cs.onSuccessfulTx now).PingSent now, none, bytes)
    | _ => (cs, some .unreachableCase, [])

/-- C6 helper is above; C7 counterexample: the spec claims a second StartPing
while a ping is outstanding leaves the ping-sent stamp unchanged.  On this
code StartPing has no outstanding-ping guard and PingSent overwrites the
stamp, so calling StartPing at time 5 and again at time 9 leaves
pendingPingresp = 9, not 5, and a second PINGREQ goes out. -/
theorem c7_second_startping_restamps :
    (Client.StartPing (ClientState.initial.onConnect 1) 5).1.pendingPingresp = 5 ∧
    (Client.StartPing (Client.StartPing (ClientState.initial.onConnect 1) 5).1 9).1.pendingPingresp = 9 ∧
    (Client.StartPing (Client.StartPing (ClientState.initial.onConnect 1) 5).1 9).2.2 = [0xC0, 0x00] ∧
    (9 : Nat) ≠ 5 := by
  refine ⟨by decide, by decide, by decide, by decide⟩

/-- C7 amended: every StartPing on a connected client, outstanding ping or
not, writes another PINGREQ and overwrites pendingPingresp with the new send
time. -/
theorem c7_startping_overwrites (cs : ClientState) (now : Nat) (h : cs.closeErr = none) :
    Client.StartPing cs now =
      ({ cs with lastTx := now, pendingPingresp := now }, none, [0xC0, 0x00]) := by
  have henc : Header.Encode ⟨PacketPingreq * 16, 0⟩ = .ok [0xC0, 0x00] := by decide
  simp [Client.StartPing, h, henc, ClientState.onSuccessfulTx, ClientState.PingSent]

/-- Closed witness for the amended C7 theorem. -/
theorem c7_startping_overwrites_witness :
    Client.StartPing (ClientState.initial.onConnect 1) 5 =
      ({ ClientState.initial.onConnect 1 with lastTx := 5, pendingPingresp := 5 }, none, [0xC0, 0x00]) :=
  c7_startping_overwrites (ClientState.initial.onConnect 1) 5 (by decide)

/-- Contents of buffer[:k] after readFull copied what it could from r into the
buffer head: the bytes read followed by the stale buffer bytes it did not
reach. -/
def overwriteHead (k : Nat) (r buffer : List Nat) : List Nat :=
  r.take k ++ (buffer.drop (min k r.length)).take (k - r.length)

/-- decodeMQTTString (decode.go lines 420-440).  The buffer argument is the
caller buffer contents.  The Go comparison against uint16(len(buffer)) is
modelled with an explicit modulus.  On the read of the string body readFull
only reports an error when nothing was available (see readFull), in which
case the source still returns buffer[:stringLength]. -/
def decodeMQTTString (r : List Nat) (buffer : List Nat) : List Nat × Nat × Option Err × List Nat :=
  if buffer.length < 2 then ([], 0, some .userBufferFull, r)
  else
    match decodeUint16 r with
    | (_, n, some e, r2) => ([], n, some e, r2)
    | (stringLength, n, none, r2) =>
      if stringLength = 0 then ([], n, some .zeroLengthString, r2)
      else if stringLength > buffer.length % 65536 then ([], n, some .userBufferFull, r2)
      else
        let t := readFull stringLength r2
        (overwriteHead stringLength r2 buffer, n + t.1, t.2.1, t.2.2)

/-- DecodeConnack (decode.go lines 295-306, identical body to decodeConnack):
two-byte read then the ack-flags validation (AckFlags &^ 1 must be zero). -/
def DecodeConnack (r : List Nat) : VariablesConnack × Nat × Option Err × List Nat :=
  match readFull 2 r with
  | (n, some e, r2) => (⟨0, 0⟩, n, some e, r2)
  | (n, none, r2) =>
    let buf := takePad 2 r
    if buf.getD 0 0 &&& 254 ≠ 0 then (⟨0, 0⟩, n, some .badConnackFlags, r2)
    else (⟨buf.getD 0 0, buf.getD 1 0⟩, n, none, r2)

/-- Return-code loop of DecodeSuback (decode.go lines 354-361): one byte per
code while n < remainingLen. -/
def decodeSubackLoop : List Nat → Nat → Nat → List Nat → List Nat × Nat × Option Err × List Nat
  | [], n, remlen, acc =>
    if n < remlen then (acc, n, some .eofErr, []) else (acc, n, none, [])
  | b :: rest, n, remlen, acc =>
    if n < remlen then decodeSubackLoop rest (n + 1) remlen (acc ++ [b])
    else (acc, n, none, b :: rest)

/-- DecodeSuback (decode.go lines 349-363): packet identifier then the
return-code loop; the zero struct is returned on any error. -/
def DecodeSuback (r : List Nat) (remainingLen : Nat) : VariablesSuback × Nat × Option Err × List Nat :=
  match decodeUint16 r with
  | (_, n, some e, r2) => (⟨0, []⟩, n, some e, r2)
  | (pi, n, none, r2) =>
    match decodeSubackLoop r2 n remainingLen [] with
    | (_, n2, some e, r3) => (⟨0, []⟩, n2, some e, r3)
    | (codes, n2, none, r3) => (⟨pi, codes⟩, n2, none, r3)

/-- DecodePublish (decode.go lines 309-324): topic string, then the packet
identifier when QoS is 1 or 2. -/
def DecodePublish (r : List Nat) (userBuffer : List Nat) (qos : Nat) : VariablesPublish × Nat × Option Err × List Nat :=
  match decodeMQTTString r userBuffer with
  | (_, n, some e, r1) => (⟨[], 0⟩, n, some e, r1)
  | (topic, n, none, r1) =>
    if qos = 1 ∨ qos = 2 then
      match decodeUint16 r1 with
      | (_, ngot, some e, r2) => (⟨[], 0⟩, n + ngot, some e, r2)
      | (pi, ngot, none, r2) => (⟨topic, pi⟩, n + ngot, none, r2)
    else (⟨topic, 0⟩, n, none, r1)

/-- Filter loop of DecodeSubscribe (decode.go lines 332-345).  The fuel only
bounds the iterations (each one advances n by at least three, so remainingLen
iterations are enough to reach the loop exit n >= remainingLen); exhausting
it is unreachable and mapped to the loop exit. -/
def decodeSubscribeLoop : Nat → List Nat → List Nat → Nat → Nat → List SubscribeRequest →
    List SubscribeRequest × Nat × Option Err × List Nat
  | 0, r, _, n, _, acc => (acc, n, none, r)
  | fuel + 1, r, pd, n, remlen, acc =>
    if n < remlen then
      match decodeMQTTString r pd with
      | (_, ngot, some e, r1) => (acc, n + ngot, some e, r1)
      | (topic, ngot, none, r1) =>
        match decodeByte r1 with
        | (_, some e, r2) => (acc, n + ngot, some e, r2)
        | (q, none, r2) =>
          decodeSubscribeLoop fuel r2 (pd.drop ngot) (n + ngot + 1) remlen (acc ++ [⟨topic, q⟩])
    else (acc, n, none, r)

/-- DecodeSubscribe (decode.go lines 326-347). -/
def DecodeSubscribe (r : List Nat) (userBuffer : List Nat) (remainingLen : Nat) :
    VariablesSubscribe × Nat × Option Err × List Nat :=
  match decodeUint16 r with
  | (_, n, some e, r2) => (⟨0, []⟩, n, some e, r2)
  | (pi, n, none, r2) =>
    match decodeSubscribeLoop remainingLen r2 userBuffer n remainingLen [] with
    | (_, n2, some e, r3) => (⟨0, []⟩, n2, some e, r3)
    | (filters, n2, none, r3) => (⟨pi, filters⟩, n2, none, r3)

/-- Topic loop of DecodeUnsubscribe (decode.go lines 371-379), fuel as in
decodeSubscribeLoop. -/
def decodeUnsubscribeLoop : Nat → List Nat → List Nat → Nat → Nat → List (List Nat) →
    List (List Nat) × Nat × Option Err × List Nat
  | 0, r, _, n, _, acc => (acc, n, none, r)
  | fuel + 1, r, pd, n, remlen, acc =>
    if n < remlen then
      match decodeMQTTString r pd with
      | (_, ngot, some e, r1) => (acc, n + ngot, some e, r1)
      | (topic, ngot, none, r1) =>
        decodeUnsubscribeLoop fuel r1 (pd.drop ngot) (n + ngot) remlen (acc ++ [topic])
    else (acc, n, none, r)

/-- DecodeUnsubscribe (decode.go lines 365-381). -/
def DecodeUnsubscribe (r : List Nat) (userBuffer : List Nat) (remainingLength : Nat) :
    VariablesUnsubscribe × Nat × Option Err × List Nat :=
  match decodeUint16 r with
  | (_, n, some e, r2) => (⟨0, []⟩, n, some e, r2)
  | (pi, n, none, r2) =>
    match decodeUnsubscribeLoop remainingLength r2 userBuffer n remainingLength [] with
    | (_, n2, some e, r3) => (⟨0, []⟩, n2, some e, r3)
    | (topics, n2, none, r3) => (⟨pi, topics⟩, n2, none, r3)

/-- Username and password tail of DecodeConnect (decode.go lines 276-291). -/
def connectUserPass (base : VariablesConnect) (userNameFlag passwordFlag : Bool)
    (r pd : List Nat) (n : Nat) : VariablesConnect × Nat × Option Err × List Nat :=
  if userNameFlag then
    match decodeMQTTString r pd with
    | (_, ngot, some e, r1) => (VariablesConnect.zero, n + ngot, some e, r1)
    | (username, ngot, none, r1) =>
      if passwordFlag then
        match decodeMQTTString r1 (pd.drop ngot) with
        | (_, ngot2, some e, r2) => (VariablesConnect.zero, n + ngot + ngot2, some e, r2)
        | (password, ngot2, none, r2) =>
          ({ base with Username := username, Password := password }, n + ngot + ngot2, none, r2)
      else ({ base with Username := username }, n + ngot, none, r1)
  else (base, n, none, r)

/-- Will-topic and will-message tail of DecodeConnect (decode.go lines
261-274). -/
def connectWill (base : VariablesConnect) (willFlag userNameFlag passwordFlag : Bool)
    (r pd : List Nat) (n : Nat) : VariablesConnect × Nat × Option Err × List Nat :=
  if willFlag then
    match decodeMQTTString r pd with
    | (_, ngot, some e, r1) => (VariablesConnect.zero, n + ngot, some e, r1)
    | (willTopic, ngot, none, r1) =>
      match decodeMQTTString r1 (pd.drop ngot) with
      | (_, ngot2, some e, r2) => (VariablesConnect.zero, n + ngot + ngot2, some e, r2)
      | (willMessage, ngot2, none, r2) =>
        connectUserPass { base with WillTopic := willTopic, WillMessage := willMessage }
          userNameFlag passwordFlag r2 ((pd.drop ngot).drop ngot2) (n + ngot + ngot2)
  else connectUserPass base userNameFlag passwordFlag r pd n

/-- DecodeConnect (decode.go lines 219-293).  Faithful to the source
byte-count quirks: the user buffer is advanced by the full protocol-string
byte count n (not just its body), and the ClientID byte count is never added
to n. -/
def DecodeConnect (r : List Nat) (userBuffer : List Nat) : VariablesConnect × Nat × Option Err × List Nat :=
  match decodeMQTTString r userBuffer with
  | (_, n, some e, r1) => (VariablesConnect.zero, n, some e, r1)
  | (protocol, n0, none, r1) =>
    let pd1 := userBuffer.drop n0
    match decodeByte r1 with
    | (_, some e, r2) => (VariablesConnect.zero, n0, some e, r2)
    | (protocolLevel, none, r2) =>
      let n1 := n0 + 1
      match decodeByte r2 with
      | (_, some e, r3) => (VariablesConnect.zero, n1, some e, r3)
      | (flags, none, r3) =>
        let n2 := n1 + 1
        if flags &&& 1 != 0 then (VariablesConnect.zero, n2, some .reservedConnectFlag, r3)
        else
        let userNameFlag := flags &&& 128 != 0
        let passwordFlag := flags &&& 64 != 0
        if passwordFlag && !userNameFlag then (VariablesConnect.zero, n2, some .passwordNoUsername, r3)
        else
        match decodeUint16 r3 with
        | (_, ngot, some e, r4) => (VariablesConnect.zero, n2 + ngot, some e, r4)
        | (keepAlive, ngot, none, r4) =>
          let n3 := n2 + ngot
          match decodeMQTTString r4 pd1 with
          | (_, _, some e, r5) => (VariablesConnect.zero, n3, some e, r5)
          | (clientID, ngotCid, none, r5) =>
            let base : VariablesConnect :=
              { ClientID := clientID
                Protocol := protocol
                ProtocolLevel := protocolLevel
                Username := []
                Password := []
                WillTopic := []
                WillMessage := []
                WillRetain := flags &&& 32 != 0
                CleanSession := flags &&& 2 != 0
                WillQoS := flags / 8 &&& 3
                KeepAlive := keepAlive }
            connectWill base (flags &&& 4 != 0) userNameFlag passwordFlag r5 (pd1.drop ngotCid) n3

/-- Callback event raised by the dispatch of Rx.ReadNextPacket. -/
inductive RxEvent where
  | onConnack (vc : VariablesConnack)
  | onConnect (vc : VariablesConnect)
  | onPub (vp : VariablesPublish) (payloadLen : Int) (payload : List Nat)
  | onSub (vs : VariablesSubscribe)
  | onSuback (vs : VariablesSuback)
  | onUnsub (vu : VariablesUnsubscribe)
  | onOther (packetIdentifier : Nat)
deriving DecidableEq, Repr

/-- Packet dispatch of Rx.ReadNextPacket (part_013 lines 321-440),
crystallised as the callback event it raises: the event (none when an error
preempts the callback), the byte count added to n (the PUBLISH payload bytes
are not counted, as in the source), the decode or precondition error, and the
rest of the stream.  The PUBLISH limited reader is consumed by the caller
(see clientReadNextPacket). -/
def rxDispatch (hdr : Header) (r : List Nat) (userBuffer : List Nat) :
    Option RxEvent × Nat × Option Err × List Nat :=
  let packetType := hdr.Type
  if packetType = PacketPublish then
    let qos := hdr.Flags / 2 &&& 3
    match DecodePublish r userBuffer qos with
    | (_, ngot, some e, r1) => (none, ngot, some e, r1)
    | (vp, ngot, none, r1) =>
      let payloadLen : Int := (hdr.RemainingLength : Int) - (ngot : Int)
      (some (.onPub vp payloadLen (r1.take payloadLen.toNat)), ngot, none, r1.drop payloadLen.toNat)
  else if packetType = PacketConnack then
    if hdr.RemainingLength ≠ 2 then (none, 0, some .badRemainingLen, r)
    else
      match DecodeConnack r with
      | (_, ngot, some e, r1) => (none, ngot, some e, r1)
      | (vc, ngot, none, r1) => (some (.onConnack vc), ngot, none, r1)
  else if packetType = PacketConnect then
    match DecodeConnect r userBuffer with
    | (_, ngot, some e, r1) => (none, ngot, some e, r1)
    | (vc, ngot, none, r1) => (some (.onConnect vc), ngot, none, r1)
  else if packetType = PacketSuback then
    if hdr.RemainingLength < 2 then (none, 0, some .badRemainingLen, r)
    else
      match DecodeSuback r hdr.RemainingLength with
      | (_, ngot, some e, r1) => (none, ngot, some e, r1)
      | (vs, ngot, none, r1) => (some (.onSuback vs), ngot, none, r1)
  else if packetType = PacketSubscribe then
    match DecodeSubscribe r userBuffer hdr.RemainingLength with
    | (_, ngot, some e, r1) => (none, ngot, some e, r1)
    | (vs, ngot, none, r1) => (some (.onSub vs), ngot, none, r1)
  else if packetType = PacketUnsubscribe then
    match DecodeUnsubscribe r userBuffer hdr.RemainingLength with
    | (_, ngot, some e, r1) => (none, ngot, some e, r1)
    | (vu, ngot, none, r1) => (some (.onUnsub vu), ngot, none, r1)
  else if packetType = PacketPuback ∨ packetType = PacketPubrec ∨ packetType = PacketPubrel ∨
      packetType = PacketPubcomp ∨ packetType = PacketUnsuback then
    if hdr.RemainingLength ≠ 2 then (none, 0, some .badRemainingLen, r)
    else
      match decodeUint16 r with
      | (_, ngot, some e, r1) => (none, ngot, some e, r1)
      | (pi, ngot, none, r1) => (some (.onOther pi), ngot, none, r1)
  else if packetType = PacketDisconnect ∨ packetType = PacketPingreq ∨ packetType = PacketPingresp then
    if hdr.RemainingLength ≠ 0 then (none, 0, some .badRemainingLen, r)
    else (some (.onOther 0), 0, none, r)
  else (none, 0, some .unreachableCase, r)

/-- End-of-call error handling of Rx.ReadNextPacket (part_013 lines 442-446)
for a client: the callback result error, when present, is fed to the Rx error
hook, which the client wires to onDisconnect (the hook being set, Rx does not
close the transport itself). -/
def clientFinish (pair : ClientState × Option Err) (n : Nat) : ClientState × Nat × Option Err :=
  match pair with
  | (cs2, some e) => (cs2.onRxError e, n, some e)
  | (cs2, none) => (cs2, n, none)

/-- Rx.ReadNextPacket (part_013 lines 303-446) composed with the clientState
callbacks (part_003) as wired by NewClient: decode the header (a failure
after at least one byte runs the error hook), dispatch, run the matching
session callback, and feed any error to the error hook.  OnPub is nil in the
default client, so a PUBLISH payload is drained through the scratch buffer
and a payload shorter than advertised yields the underread error;
OnConnect, OnSub and OnUnsub are unset, so those packets are ignored after
decoding. -/
def clientReadNextPacket (cs : ClientState) (now : Nat) (input : List Nat) (userBuffer : List Nat) :
    ClientState × Nat × Option Err :=
  match DecodeHeader input with
  | (_, n, some e, _) => (if 0 < n then cs.onRxError e else cs, n, some e)
  | (hdr, n, none, r) =>
    match rxDispatch hdr r userBuffer with
    | (_, ngot, some e, _) => (cs.onRxError e, n + ngot, some e)
    | (ev, ngot, none, _) =>
      let n2 := n + ngot
      match ev with
      | some (.onConnack vc) => clientFinish (cs.onConnackCallback now vc) n2
      | some (.onSuback vs) => clientFinish (cs.onSubackCallback now vs) n2
      | some (.onOther pi) => clientFinish (cs.onOtherCallback now hdr.Type pi) n2
      | some (.onPub _ payloadLen payload) =>
        if (payload.length : Int) ≠ payloadLen then
          (cs.onRxError .payloadUnderread, n2, some .payloadUnderread)
        else (cs, n2, none)
      | some (.onConnect _) => (cs, n2, none)
      | some (.onSub _) => (cs, n2, none)
      | some (.onUnsub _) => (cs, n2, none)
      | none => (cs, n2, none)

/-- C5: the spec claims that after a SUBACK with K different from the N
pending filters the receive path errors AND leaves the pending-subscribe
record intact.  Counterexample on concrete wire bytes (SUBACK header 90 83 in
the format this decoder accepts, remaining length 3, packet identifier 1, one
return code) against a state with two pending filters: the call does error,
but the Rx error hook disconnects the session and clears the pending record,
which afterwards holds no filters instead of the original two. -/
theorem c5_pending_subscribe_cleared :
    (clientReadNextPacket sampleSubState 9 [0x90, 0x83, 0x00, 0x01, 0x01] []).2.2 = some Err.subackMismatch ∧
    (clientReadNextPacket sampleSubState 9 [0x90, 0x83, 0x00, 0x01, 0x01] []).1.pendingSubs.TopicFilters = [] ∧
    sampleSubState.pendingSubs.TopicFilters.length = 2 := by
  refine ⟨by decide, by decide, by decide⟩

/-- C5 amended: a SUBACK whose return-code count differs from the pending
filter count makes the suback step of the receive path return the mismatch
error, after which the client Rx error hook disconnects the session, so the
pending-subscribe record is cleared (an empty record, not the N filters). -/
theorem c5_suback_mismatch_step (cs : ClientState) (now n : Nat) (vs : VariablesSuback)
    (hne : vs.ReturnCodes.length ≠ cs.pendingSubs.TopicFilters.length) :
    (clientFinish (cs.onSubackCallback now vs) n).2.2 = some Err.subackMismatch ∧
    (clientFinish (cs.onSubackCallback now vs) n).1.pendingSubs = ⟨0, []⟩ := by
  unfold ClientState.onSubackCallback
  dsimp only
  rw [if_pos hne]
  exact ⟨rfl, rfl⟩

/-- Closed witness for the amended C5 theorem. -/
theorem c5_suback_mismatch_step_witness :
    (clientFinish (sampleSubState.onSubackCallback 9 ⟨1, [1]⟩) 5).2.2 = some Err.subackMismatch ∧
    (clientFinish (sampleSubState.onSubackCallback 9 ⟨1, [1]⟩) 5).1.pendingSubs = ⟨0, []⟩ :=
  c5_suback_mismatch_step sampleSubState 9 5 ⟨1, [1]⟩ (by decide)

/-- C8: remaining-length preconditions of Rx.ReadNextPacket per packet class.
A CONNACK is decoded and handed to on-connack only when the remaining length
equals 2; PUBACK, PUBREC, PUBREL, PUBCOMP and UNSUBACK require remaining
length 2 and hand the decoded packet identifier to on-other; DISCONNECT,
PINGREQ and PINGRESP require remaining length 0 and hand packet identifier 0
to on-other; each precondition violation yields ErrBadRemainingLen with no
callback. -/
theorem c8_read_next_packet_preconditions (hdr : Header) (r buf : List Nat) :
    (hdr.Type = PacketConnack →
      (hdr.RemainingLength ≠ 2 → rxDispatch hdr r buf = (none, 0, some .badRemainingLen, r)) ∧
      (hdr.RemainingLength = 2 → ∀ vc ngot r1, DecodeConnack r = (vc, ngot, none, r1) →
        rxDispatch hdr r buf = (some (.onConnack vc), ngot, none, r1))) ∧
    ((hdr.Type = PacketPuback ∨ hdr.Type = PacketPubrec ∨ hdr.Type = PacketPubrel ∨
        hdr.Type = PacketPubcomp ∨ hdr.Type = PacketUnsuback) →
      (hdr.RemainingLength ≠ 2 → rxDispatch hdr r buf = (none, 0, some .badRemainingLen, r)) ∧
      (hdr.RemainingLength = 2 → ∀ pi ngot r1, decodeUint16 r = (pi, ngot, none, r1) →
        rxDispatch hdr r buf = (some (.onOther pi), ngot, none, r1))) ∧
    ((hdr.Type = PacketDisconnect ∨ hdr.Type = PacketPingreq ∨ hdr.Type = PacketPingresp) →
      (hdr.RemainingLength ≠ 0 → rxDispatch hdr r buf = (none, 0, some .badRemainingLen, r)) ∧
      (hdr.RemainingLength = 0 → rxDispatch hdr r buf = (some (.onOther 0), 0, none, r))) := by
  refine ⟨?_, ?_, ?_⟩
  · intro htype
    constructor
    · intro hrl
      simp [rxDispatch, htype, PacketConnack, PacketPublish, hrl]
    · intro hrl vc ngot r1 hdec
      simp [rxDispatch, htype, PacketConnack, PacketPublish, hrl, hdec]
  · intro htype
    have hgo : ∀ hrl : hdr.RemainingLength ≠ 2,
        rxDispatch hdr r buf = (none, 0, some .badRemainingLen, r) := by
      intro hrl
      rcases htype with h | h | h | h | h <;>
        simp [rxDispatch, h, PacketPublish, PacketConnack, PacketConnect, PacketSuback,
          PacketSubscribe, PacketUnsubscribe, PacketPuback, PacketPubrec, PacketPubrel,
          PacketPubcomp, PacketUnsuback, hrl]
    refine ⟨hgo, ?_⟩
    intro hrl pi ngot r1 hdec
    rcases htype with h | h | h | h | h <;>
      simp [rxDispatch, h, PacketPublish, PacketConnack, PacketConnect, PacketSuback,
        PacketSubscribe, PacketUnsubscribe, PacketPuback, PacketPubrec, PacketPubrel,
        PacketPubcomp, PacketUnsuback, hrl, hdec]
  · intro htype
    constructor
    · intro hrl
      rcases htype with h | h | h <;>
        simp [rxDispatch, h, PacketPublish, PacketConnack, PacketConnect, PacketSuback,
          PacketSubscribe, PacketUnsubscribe, PacketPuback, PacketPubrec, PacketPubrel,
          PacketPubcomp, PacketUnsuback, PacketDisconnect, PacketPingreq, PacketPingresp, hrl]
    · intro hrl
      rcases htype with h | h | h <;>
        simp [rxDispatch, h, PacketPublish, PacketConnack, PacketConnect, PacketSuback,
          PacketSubscribe, PacketUnsubscribe, PacketPuback, PacketPubrec, PacketPubrel,
          PacketPubcomp, PacketUnsuback, PacketDisconnect, PacketPingreq, PacketPingresp, hrl]

/-- Closed witness for C8: CONNACK 20 02 00 00, PUBACK 40 02 00 01,
DISCONNECT E0 00, and a CONNACK header with remaining length 3 rejected. -/
theorem c8_read_next_packet_preconditions_witness :
    rxDispatch ⟨0x20, 2⟩ [0x00, 0x00] [] = (some (.onConnack ⟨0, 0⟩), 2, none, []) ∧
    rxDispatch ⟨0x40, 2⟩ [0x00, 0x01] [] = (some (.onOther 1), 2, none, []) ∧
    rxDispatch ⟨0xE0, 0⟩ [] [] = (some (.onOther 0), 0, none, []) ∧
    rxDispatch ⟨0x20, 3⟩ [0x00, 0x00] [] = (none, 0, some .badRemainingLen, [0x00, 0x00]) := by
  refine ⟨?_, ?_, ?_, ?_⟩
  · exact (c8_read_next_packet_preconditions ⟨0x20, 2⟩ [0x00, 0x00] []).1 (by decide) |>.2 (by decide)
      ⟨0, 0⟩ 2 [] (by decide)
  · exact ((c8_read_next_packet_preconditions ⟨0x40, 2⟩ [0x00, 0x01] []).2.1 (by decide)).2
      (by decide) 1 2 [] (by decide)
  · exact ((c8_read_next_packet_preconditions ⟨0xE0, 0⟩ [] []).2.2 (by decide)).2 (by decide)
  · exact ((c8_read_next_packet_preconditions ⟨0x20, 3⟩ [0x00, 0x00] []).1 (by decide)).1 (by decide)

/-- VariablesPublish.Validate (mqtt.go lines 346-353): rejects a zero packet
identifier first, then an empty topic, regardless of QoS. -/
def VariablesPublish.Validate (vp : VariablesPublish) : Option Err :=
  if vp.PacketIdentifier = 0 then some .gotZeroPI
  else if vp.TopicName.length = 0 then some .emptyTopic
  else none

/-- encodeMQTTString (part_006 lines 28-46): rejects empty and over-long
strings, otherwise writes the big-endian length prefix then the bytes. -/
def encodeMQTTString (s : List Nat) : List Nat × Option Err :=
  if s.length = 0 then ([], some .encodeZeroString)
  else if s.length > 65535 then ([], some .encodeLongString)
  else ([s.length / 256, s.length % 256] ++ s, none)

/-- encodePublish (part_006 lines 136-149): topic string, then the packet
identifier only when QoS is nonzero. -/
def encodePublish (qos : Nat) (varPub : VariablesPublish) : List Nat × Option Err :=
  match encodeMQTTString varPub.TopicName with
  | (bytes, some e) => (bytes, some e)
  | (bytes, none) =>
    if qos ≠ 0 then
      (bytes ++ [varPub.PacketIdentifier / 256 % 256, varPub.PacketIdentifier % 256], none)
    else (bytes, none)

/-- Client.PublishPayload (part_001 lines 197-211): validate the variable
header, allow only QoS0 flags, require a connected client, then hand off to
Tx.WritePublishPayload.  The model returns the error outcome of that error
path, which is what the claim is about. -/
def Client.PublishPayload (cs : ClientState) (flags : Nat) (varPub : VariablesPublish) : Option Err :=
  match varPub.Validate with
  | some e => some e
  | none =>
    let qos := flags / 2 &&& 3
    if qos ≠ 0 then some .onlyQoS0
    else if cs.closeErr.isSome then some .disconnected
    else none

/-- C9: the spec claims the nonzero packet-identifier requirement applies
only when the identifier is present (QoS greater than 0), so a QoS0 PUBLISH
with packet identifier 0 and nonempty topic validates and publishes.  The
code refutes this: Validate rejects a zero packet identifier before looking
at anything else, so the QoS0 publish with identifier 0 fails with the
zero-identifier error. -/
theorem c9_qos0_zero_pi_rejected :
    VariablesPublish.Validate ⟨[0x74], 0⟩ = some Err.gotZeroPI ∧
    Client.PublishPayload (ClientState.initial.onConnect 1) 0 ⟨[0x74], 0⟩ = some Err.gotZeroPI := by
  refine ⟨by decide, by decide⟩

/-- C9 amended: the wire format does carry the packet identifier only when
QoS is nonzero (the QoS0 encoding is exactly the topic string), but Validate
requires a nonzero identifier regardless of QoS, so validating and publishing
a QoS0 PUBLISH with identifier 0 fails with the zero-identifier error, while
any nonzero identifier with a nonempty topic validates and the QoS0 publish
succeeds on a connected client. -/
theorem c9_publish_validation (vp : VariablesPublish) (cs : ClientState)
    (hconn : cs.closeErr = none) :
    ((encodePublish 0 vp).1 = (encodeMQTTString vp.TopicName).1) ∧
    (vp.Validate = none ↔ (vp.PacketIdentifier ≠ 0 ∧ vp.TopicName ≠ [])) ∧
    (vp.PacketIdentifier = 0 → Client.PublishPayload cs 0 vp = some Err.gotZeroPI) ∧
    (vp.PacketIdentifier ≠ 0 → vp.TopicName ≠ [] → Client.PublishPayload cs 0 vp = none) := by
  refine ⟨?_, ?_, ?_, ?_⟩
  · unfold encodePublish
    rcases h : encodeMQTTString vp.TopicName with ⟨bytes, e⟩
    cases e <;> simp
  · unfold VariablesPublish.Validate
    constructor
    · intro h
      by_cases h0 : vp.PacketIdentifier = 0
      · simp [h0] at h
      · by_cases h1 : vp.TopicName.length = 0
        · simp [h0, h1] at h
        · exact ⟨h0, fun hnil => h1 (by simp [hnil])⟩
    · rintro ⟨h0, h1⟩
      rw [if_neg h0, if_neg (by simpa using h1)]
  · intro h0
    unfold Client.PublishPayload VariablesPublish.Validate
    rw [if_pos h0]
  · intro h0 h1
    unfold Client.PublishPayload VariablesPublish.Validate
    rw [if_neg h0, if_neg (by simpa using h1)]
    simp [hconn]

/-- Closed witness for the amended C9 theorem. -/
theorem c9_publish_validation_witness :
    ((encodePublish 0 ⟨[0x74], 0⟩).1 = (encodeMQTTString [0x74]).1) ∧
    Client.PublishPayload (ClientState.initial.onConnect 1) 0 ⟨[0x74], 0⟩ = some Err.gotZeroPI := by
  have h := c9_publish_validation ⟨[0x74], 0⟩ (ClientState.initial.onConnect 1) (by decide)
  exact ⟨h.1, h.2.2.1 (by decide)⟩

/-- Helper for C10: decodeUint16 on a stream with at least two bytes. -/
theorem decodeUint16_cons (b0 b1 : Nat) (rest : List Nat) :
    decodeUint16 (b0 :: b1 :: rest) = (b0 * 256 + b1, 2, none, rest) := by
  simp [decodeUint16, readFull, takePad]

/-- C10: the non-allocating string decoder rejects every zero-declared MQTT
string (first conjunct, covering any packet field routed through it), and
when the declared length exceeds the caller buffer it returns the
user-buffer-full error having consumed exactly the 2-byte length prefix
(second conjunct); the four final conjuncts run DecodeConnect on concrete
CONNECT bodies whose will-topic, will-message, username and password are
declared zero-length, each returning an error. -/
theorem c10_zero_length_and_buffer_full :
    (∀ (rest buffer : List Nat), (decodeMQTTString (0 :: 0 :: rest) buffer).2.2.1 ≠ none) ∧
    (∀ (b0 b1 : Nat) (rest buffer : List Nat), b0 < 256 → b1 < 256 →
      2 ≤ buffer.length → buffer.length < b0 * 256 + b1 →
      decodeMQTTString (b0 :: b1 :: rest) buffer = ([], 2, some .userBufferFull, rest)) ∧
    ((DecodeConnect [0, 4, 0x4D, 0x51, 0x54, 0x54, 4, 0x04, 0, 60, 0, 1, 0x61, 0, 0]
        (List.replicate 64 0)).2.2.1 = some Err.zeroLengthString) ∧
    ((DecodeConnect [0, 4, 0x4D, 0x51, 0x54, 0x54, 4, 0x04, 0, 60, 0, 1, 0x61, 0, 1, 0x62, 0, 0]
        (List.replicate 64 0)).2.2.1 = some Err.zeroLengthString) ∧
    ((DecodeConnect [0, 4, 0x4D, 0x51, 0x54, 0x54, 4, 0x80, 0, 60, 0, 1, 0x61, 0, 0]
        (List.replicate 64 0)).2.2.1 = some Err.zeroLengthString) ∧
    ((DecodeConnect [0, 4, 0x4D, 0x51, 0x54, 0x54, 4, 0xC0, 0, 60, 0, 1, 0x61, 0, 1, 0x75, 0, 0]
        (List.replicate 64 0)).2.2.1 = some Err.zeroLengthString) := by
  refine ⟨?_, ?_, by decide, by decide, by decide, by decide⟩
  · intro rest buffer
    unfold decodeMQTTString
    by_cases hb : buffer.length < 2
    · simp [hb]
    · rw [if_neg hb, decodeUint16_cons]
      simp
  · intro b0 b1 rest buffer hb0 hb1 hblen hlt
    unfold decodeMQTTString
    rw [if_neg (by omega), decodeUint16_cons]
    have hne : ¬ (b0 * 256 + b1 = 0) := by omega
    have hmod : buffer.length % 65536 = buffer.length := Nat.mod_eq_of_lt (by omega)
    dsimp only
    rw [if_neg hne, hmod, if_pos (by omega)]

/-- Closed witness for C10. -/
theorem c10_zero_length_and_buffer_full_witness :
    (decodeMQTTString [0, 0, 0x61] [0, 0, 0, 0]).2.2.1 ≠ none ∧
    decodeMQTTString [0, 9, 0x61] [0, 0, 0, 0] = ([], 2, some .userBufferFull, [0x61]) := by
  refine ⟨c10_zero_length_and_buffer_full.1 [0x61] [0, 0, 0, 0], ?_⟩
  exact c10_zero_length_and_buffer_full.2.1 0 9 [0x61] [0, 0, 0, 0] (by decide) (by decide)
    (by decide) (by decide)

end Natiu
